import Mathlib

/-!
Verification of the UVCAD sync engine against its specification.

This file gives a shallow embedding of the relevant parts of the Rust
sources (src/src-tauri/src) as executable Lean definitions, and proves or
refutes the frozen claims about them.

Conventions of the embedding:
* Paths are `String` (the engine keys its maps by relative path).
* `HashMap<PathBuf, FileSnapshot>` is modelled by an association list
  `List (String × FileSnapshot)`; iteration order of the Rust hash map is
  unspecified, so theorems below never depend on the order chosen here.
* Timestamps are `Nat` instants; machine integers `i64` are `Int`.
* Fallible Rust functions returning `Result<T, UvcadError>` become
  `Except UvcadError T`.
* Field `local` of Rust struct `LastKnownState` is a Lean keyword, so the
  three fields are named `local_state`, `gdrive_state`, `smb_state`; the
  Rust field `from` of `SyncOperation::Upload` is likewise named
  `from_loc`, and `to` is `to_loc`.
-/

namespace UVCAD

/-- `FileLocation` from src/src-tauri/src/models/file_state.rs. -/
inductive FileLocation
  | Local
  | GoogleDrive
  | Smb
deriving DecidableEq

/-- `SyncStatus` from src/src-tauri/src/models/file_state.rs. -/
inductive SyncStatus
  | Synced
  | Modified
  | Deleted
  | Conflict
  | Pending
deriving DecidableEq

/-- `UvcadError` from src/src-tauri/src/utils/error.rs.  Wrapped foreign
error payloads (reqwest, rusqlite, io, keyring, serde) are modelled as
their display strings. -/
inductive UvcadError
  | AuthenticationFailed (msg : String)
  | NetworkError (msg : String)
  | DatabaseError (msg : String)
  | FileNotFound (path : String)
  | ConflictDetected (path : String)
  | SmbNotAccessible (msg : String)
  | HashMismatch (path : String)
  | InvalidConfig (msg : String)
  | IoError (msg : String)
  | OAuthError (msg : String)
  | TokenStorageError (msg : String)
  | SerializationError (msg : String)
  | ProviderError (msg : String)
  | SyncFailed (msg : String)
deriving DecidableEq

/-- `FileSnapshot` from src/src-tauri/src/core/sync_engine.rs: one
observation of a file at one location. -/
structure FileSnapshot where
  path : String
  hash : Option String
  size : Nat
  modified : Nat
  location : FileLocation
deriving DecidableEq

/-- `Conflict` from src/src-tauri/src/core/conflict_resolver.rs
(imported as `ConflictInfo` by the engine). -/
structure ConflictInfo where
  file_path : String
  local_hash : Option String
  gdrive_hash : Option String
  smb_hash : Option String
deriving DecidableEq

/-- `SyncOperation` from src/src-tauri/src/core/sync_engine.rs. -/
inductive SyncOperation
  | Upload (from_loc : FileLocation) (to_loc : FileLocation) (path : String)
  | Delete (location : FileLocation) (path : String)
deriving DecidableEq

/-- `SyncAction` from src/src-tauri/src/core/sync_engine.rs. -/
inductive SyncAction
  | NoAction
  | Sync (operations : List SyncOperation)
  | Conflict (c : ConflictInfo)
deriving DecidableEq

/-- `LastKnownState` from src/src-tauri/src/core/sync_engine.rs: the last
known hash per location for one path. -/
structure LastKnownState where
  local_state : Option String
  gdrive_state : Option String
  smb_state : Option String
deriving DecidableEq

/-- `FileState` from src/src-tauri/src/models/file_state.rs: one persisted
baseline row. -/
structure FileState where
  id : Option Int
  profile_id : Int
  file_path : String
  location : FileLocation
  content_hash : Option String
  size_bytes : Option Int
  modified_at : Option Nat
  synced_at : Option Nat
  status : SyncStatus
  metadata : Option String
deriving DecidableEq

/-- `SyncEngine::has_changed` (src/src-tauri/src/core/sync_engine.rs,
lines 268-287): change predicate of one location relative to the
baseline hash. -/
def has_changed (current : Option FileSnapshot) (last_known : Option String) : Bool :=
  match current, last_known with
  | some curr, some known => curr.hash != some known
  | some _, none => true
  | none, some _ => true
  | none, none => false

/-- The distinct-value accumulator built by `detect_conflicts` via a
`HashSet`: a left fold keeping the first occurrence of each value. -/
def uniqueValues (hashes : List String) : List String :=
  hashes.foldl (fun acc h => if h ∈ acc then acc else acc ++ [h]) []

/-- `ConflictResolver::detect_conflicts`
(src/src-tauri/src/core/conflict_resolver.rs, lines 40-67): pure
three-optional-hash conflict detector.  The Rust code counts the distinct
present values through a `HashSet`; only the count is consumed, which
`uniqueValues` reproduces exactly. -/
def detect_conflicts (local_hash gdrive_hash smb_hash : Option String) :
    Option ConflictInfo :=
  let hashes : List String := [local_hash, gdrive_hash, smb_hash].filterMap id
  if (uniqueValues hashes).length ≤ 1 then
    none
  else
    some ⟨"", local_hash, gdrive_hash, smb_hash⟩

/-- C5: `has_changed` is true iff the file is new (present now, no
baseline entry), or deleted (absent now, baseline entry present), or
present on both sides with a current hash differing from the last-known
hash; and it is false when neither side has the file. -/
theorem has_changed_spec (current : Option FileSnapshot) (known : Option String) :
    (has_changed current known = true ↔
      ((∃ c, current = some c ∧ known = none) ∨
       (current = none ∧ ∃ k, known = some k) ∨
       (∃ c k, current = some c ∧ known = some k ∧ c.hash ≠ some k))) ∧
    has_changed none (none : Option String) = false := by
  constructor
  · cases current with
    | none =>
      cases known with
      | none => simp [has_changed]
      | some k => simp [has_changed]
    | some c =>
      cases known with
      | none => simp [has_changed]
      | some k => simp [has_changed, bne_iff_ne]
  · rfl

/-- C6: `detect_conflicts` returns a conflict record (carrying the three
argument hashes) iff at least two distinct non-null values occur among its
arguments, and returns `none` iff all present values agree (which covers
the cases with at most one present value). -/
theorem detect_conflicts_spec (l g s : Option String) :
    (detect_conflicts l g s = some ⟨"", l, g, s⟩ ↔
      ∃ a b, a ∈ [l, g, s].filterMap id ∧ b ∈ [l, g, s].filterMap id ∧ a ≠ b) ∧
    (detect_conflicts l g s = none ↔
      ∀ a ∈ [l, g, s].filterMap id, ∀ b ∈ [l, g, s].filterMap id, a = b) := by
  cases l with
  | none =>
    cases g with
    | none =>
      cases s with
      | none => simp [detect_conflicts, uniqueValues]
      | some c => simp [detect_conflicts, uniqueValues]
    | some b =>
      cases s with
      | none => simp [detect_conflicts, uniqueValues]
      | some c =>
        by_cases hbc : b = c <;>
          simp [detect_conflicts, uniqueValues, hbc] <;>
          aesop
  | some a =>
    cases g with
    | none =>
      cases s with
      | none => simp [detect_conflicts, uniqueValues]
      | some c =>
        by_cases hac : a = c <;>
          simp [detect_conflicts, uniqueValues, hac] <;>
          aesop
    | some b =>
      cases s with
      | none =>
        by_cases hab : a = b <;>
          simp [detect_conflicts, uniqueValues, hab] <;>
          aesop
      | some c =>
        by_cases hab : a = b <;> by_cases hac : a = c <;> by_cases hbc : b = c <;>
          simp [detect_conflicts, uniqueValues, hab, hac, hbc] <;>
          aesop

/-- Which optional providers the engine instance holds
(`SyncEngine.gdrive_provider.is_some()` / `smb_provider.is_some()` in
src/src-tauri/src/core/sync_engine.rs; the local provider is always
present). -/
structure EngineCfg where
  gdriveConfigured : Bool
  smbConfigured : Bool
deriving DecidableEq

/-- `SyncEngine::sync_from_local` (sync_engine.rs, lines 289-330):
propagate a single-source change detected at the local location. -/
def sync_from_local (cfg : EngineCfg) (path : String)
    (l g s : Option FileSnapshot) : SyncAction :=
  let operations : List SyncOperation :=
    match l with
    | some _ =>
      (if cfg.gdriveConfigured && g.isNone then
        [.Upload .Local .GoogleDrive path] else []) ++
      (if cfg.smbConfigured && s.isNone then
        [.Upload .Local .Smb path] else [])
    | none =>
      (if g.isSome then [.Delete .GoogleDrive path] else []) ++
      (if s.isSome then [.Delete .Smb path] else [])
  if operations.isEmpty then .NoAction else .Sync operations

/-- `SyncEngine::sync_from_gdrive` (sync_engine.rs, lines 332-373). -/
def sync_from_gdrive (cfg : EngineCfg) (path : String)
    (l g s : Option FileSnapshot) : SyncAction :=
  let operations : List SyncOperation :=
    match g with
    | some _ =>
      (if l.isNone then [.Upload .GoogleDrive .Local path] else []) ++
      (if cfg.smbConfigured && s.isNone then
        [.Upload .GoogleDrive .Smb path] else [])
    | none =>
      (if l.isSome then [.Delete .Local path] else []) ++
      (if s.isSome then [.Delete .Smb path] else [])
  if operations.isEmpty then .NoAction else .Sync operations

/-- `SyncEngine::sync_from_smb` (sync_engine.rs, lines 375-416). -/
def sync_from_smb (cfg : EngineCfg) (path : String)
    (l g s : Option FileSnapshot) : SyncAction :=
  let operations : List SyncOperation :=
    match s with
    | some _ =>
      (if l.isNone then [.Upload .Smb .Local path] else []) ++
      (if cfg.gdriveConfigured && g.isNone then
        [.Upload .Smb .GoogleDrive path] else [])
    | none =>
      (if l.isSome then [.Delete .Local path] else []) ++
      (if g.isSome then [.Delete .GoogleDrive path] else [])
  if operations.isEmpty then .NoAction else .Sync operations

/-- `SyncEngine::sync_to_missing` (sync_engine.rs, lines 418-459): fill
every configured still-missing location from a present one; the source is
deduced with the local-then-gdrive-then-smb preference. -/
def sync_to_missing (cfg : EngineCfg) (path : String)
    (l g s : Option FileSnapshot) : SyncAction :=
  match l.orElse (fun _ => g.orElse (fun _ => s)) with
  | none => .NoAction
  | some source =>
    let sourceLocation := source.location
    let operations : List SyncOperation :=
      (if l.isNone && sourceLocation != .Local then
        [.Upload sourceLocation .Local path] else []) ++
      (if cfg.gdriveConfigured && g.isNone && sourceLocation != .GoogleDrive then
        [.Upload sourceLocation .GoogleDrive path] else []) ++
      (if cfg.smbConfigured && s.isNone && sourceLocation != .Smb then
        [.Upload sourceLocation .Smb path] else [])
    if operations.isEmpty then .NoAction else .Sync operations

/-- The current hashes recorded in an emitted conflict
(`local.and_then(|f| f.hash.clone())` and its two siblings). -/
def snapshotHash (o : Option FileSnapshot) : Option String :=
  o.bind (fun f => f.hash)

/-- `SyncEngine::determine_sync_action` (sync_engine.rs, lines 214-266):
three-way classification of one path against the baseline. -/
def determine_sync_action (cfg : EngineCfg) (path : String)
    (l g s : Option FileSnapshot) (last_known : Option LastKnownState) :
    SyncAction :=
  let local_changed := has_changed l (last_known.bind (fun st => st.local_state))
  let gdrive_changed := has_changed g (last_known.bind (fun st => st.gdrive_state))
  let smb_changed := has_changed s (last_known.bind (fun st => st.smb_state))
  if !local_changed && !gdrive_changed && !smb_changed then
    .NoAction
  else
    let change_count :=
      ([local_changed, gdrive_changed, smb_changed].filter (fun c => c)).length
    if change_count > 1 then
      match l, g with
      | some lf, some gf =>
        if local_changed && gdrive_changed && lf.hash == gf.hash then
          sync_to_missing cfg path l g s
        else
          .Conflict ⟨path, snapshotHash l, snapshotHash g, snapshotHash s⟩
      | _, _ =>
        .Conflict ⟨path, snapshotHash l, snapshotHash g, snapshotHash s⟩
    else if local_changed then sync_from_local cfg path l g s
    else if gdrive_changed then sync_from_gdrive cfg path l g s
    else if smb_changed then sync_from_smb cfg path l g s
    else .NoAction

/-- C1 counterexample: the identical-hash exception does not apply to the
local/smb pair.  Both gdrive and smb are configured; the baseline is
empty; local and smb hold the path with the same hash `"h"`, gdrive does
not hold it.  The two changed sides (local and smb) have identical
hashes, so by the claim the action should be `sync_to_missing` — which
here would upload to the missing gdrive side — yet the code emits
`Conflict`. -/
theorem identical_hash_pair_restricted_cex :
    determine_sync_action ⟨true, true⟩ "p"
        (some ⟨"p", some "h", 5, 10, .Local⟩) none
        (some ⟨"p", some "h", 5, 11, .Smb⟩) none =
      .Conflict ⟨"p", some "h", none, some "h"⟩ ∧
    sync_to_missing ⟨true, true⟩ "p"
        (some ⟨"p", some "h", 5, 10, .Local⟩) none
        (some ⟨"p", some "h", 5, 11, .Smb⟩) =
      .Sync [.Upload .Local .GoogleDrive "p"] ∧
    has_changed (some ⟨"p", some "h", 5, 10, .Local⟩) none = true ∧
    has_changed none none = false ∧
    has_changed (some ⟨"p", some "h", 5, 11, .Smb⟩) none = true := by
  refine ⟨rfl, rfl, rfl, rfl, rfl⟩

/-- C1 amended: in the multi-change case (at least two locations changed
relative to the baseline), the identical-hash exception applies only when
the local and gdrive observations are both present, both changed, and
carry equal optional hashes — then the action is `sync_to_missing`; in
every other multi-change situation (including a changed local/smb or
gdrive/smb pair with identical hashes) the action is `Conflict` carrying
the triple of current hashes. -/
theorem multi_change_exception_local_gdrive_only (cfg : EngineCfg)
    (path : String) (l g s : Option FileSnapshot)
    (lk : Option LastKnownState)
    (h2 : 2 ≤ ([has_changed l (lk.bind (fun st => st.local_state)),
                has_changed g (lk.bind (fun st => st.gdrive_state)),
                has_changed s (lk.bind (fun st => st.smb_state))].filter
                  (fun c => c)).length) :
    ((∃ lf gf, l = some lf ∧ g = some gf ∧
        has_changed l (lk.bind (fun st => st.local_state)) = true ∧
        has_changed g (lk.bind (fun st => st.gdrive_state)) = true ∧
        lf.hash = gf.hash) →
      determine_sync_action cfg path l g s lk = sync_to_missing cfg path l g s) ∧
    (¬ (∃ lf gf, l = some lf ∧ g = some gf ∧
        has_changed l (lk.bind (fun st => st.local_state)) = true ∧
        has_changed g (lk.bind (fun st => st.gdrive_state)) = true ∧
        lf.hash = gf.hash) →
      determine_sync_action cfg path l g s lk =
        .Conflict ⟨path, snapshotHash l, snapshotHash g, snapshotHash s⟩) := by
  cases hl : has_changed l (lk.bind (fun st => st.local_state)) <;>
    cases hg : has_changed g (lk.bind (fun st => st.gdrive_state)) <;>
      cases hs : has_changed s (lk.bind (fun st => st.smb_state)) <;>
        simp only [hl, hg, hs, List.filter, List.length] at h2
  · -- nothing changed
    omega
  · -- only smb changed
    omega
  · -- only gdrive changed
    omega
  · -- gdrive and smb changed, local unchanged: exception needs local change
    constructor
    · rintro ⟨lf, gf, hlf, hgf, hlc, -, -⟩
      exact absurd hlc (by simp)
    · intro hne
      cases l with
      | none => simp [determine_sync_action, hl, hg, hs]
      | some lf =>
        cases g with
        | none => simp [determine_sync_action, hl, hg, hs]
        | some gf => simp [determine_sync_action, hl, hg, hs]
  · -- only local changed
    omega
  · -- local and smb changed, gdrive unchanged: exception needs gdrive change
    constructor
    · rintro ⟨lf, gf, hlf, hgf, -, hgc, -⟩
      exact absurd hgc (by simp)
    · intro hne
      cases l with
      | none => simp [determine_sync_action, hl, hg, hs]
      | some lf =>
        cases g with
        | none => simp [determine_sync_action, hl, hg, hs]
        | some gf => simp [determine_sync_action, hl, hg, hs]
  · -- local and gdrive changed (smb unchanged)
    constructor
    · rintro ⟨lf, gf, hlf, hgf, -, -, hhash⟩
      subst hlf
      subst hgf
      simp [determine_sync_action, hl, hg, hs, hhash]
    · intro hne
      cases l with
      | none => simp [determine_sync_action, hl, hg, hs]
      | some lf =>
        cases g with
        | none => simp [determine_sync_action, hl, hg, hs]
        | some gf =>
          have hhash : lf.hash ≠ gf.hash := by
            intro hcontra
            exact hne ⟨lf, gf, rfl, rfl, rfl, rfl, hcontra⟩
          simp [determine_sync_action, hl, hg, hs, hhash]
  · -- all three changed
    constructor
    · rintro ⟨lf, gf, hlf, hgf, -, -, hhash⟩
      subst hlf
      subst hgf
      simp [determine_sync_action, hl, hg, hs, hhash]
    · intro hne
      cases l with
      | none => simp [determine_sync_action, hl, hg, hs]
      | some lf =>
        cases g with
        | none => simp [determine_sync_action, hl, hg, hs]
        | some gf =>
          have hhash : lf.hash ≠ gf.hash := by
            intro hcontra
            exact hne ⟨lf, gf, rfl, rfl, rfl, rfl, hcontra⟩
          simp [determine_sync_action, hl, hg, hs, hhash]

/-- C1 amended, witness: concrete multi-change instance (local and gdrive
both hold hash `"h"`, both new relative to an empty baseline, smb
missing and configured) on which the exception fires and the action is
the `sync_to_missing` plan. -/
theorem multi_change_exception_witness :
    determine_sync_action ⟨true, true⟩ "w"
        (some ⟨"w", some "h", 1, 2, .Local⟩)
        (some ⟨"w", some "h", 1, 3, .GoogleDrive⟩) none none =
      sync_to_missing ⟨true, true⟩ "w"
        (some ⟨"w", some "h", 1, 2, .Local⟩)
        (some ⟨"w", some "h", 1, 3, .GoogleDrive⟩) none :=
  (multi_change_exception_local_gdrive_only ⟨true, true⟩ "w"
      (some ⟨"w", some "h", 1, 2, .Local⟩)
      (some ⟨"w", some "h", 1, 3, .GoogleDrive⟩) none none
      (by decide)).1
    ⟨⟨"w", some "h", 1, 2, .Local⟩, ⟨"w", some "h", 1, 3, .GoogleDrive⟩,
      rfl, rfl, rfl, rfl, rfl⟩

/-- A scan result: the engine maps relative path to the observed
snapshot (`HashMap<PathBuf, FileSnapshot>` built by
`SyncEngine::scan_location`).  Keys are unique; iteration order of the
Rust hash map is unspecified and no theorem below depends on the order
used here. -/
abbrev ScanMap := List (String × FileSnapshot)

/-- Insert or replace a key in an association list (used for the effect
of an upload on the destination). -/
def assocInsert {α : Type} (m : List (String × α)) (k : String) (v : α) :
    List (String × α) :=
  if (List.lookup k m).isSome then
    m.map (fun kv => if kv.1 = k then (k, v) else kv)
  else
    m ++ [(k, v)]

/-- Remove a key from an association list (the effect of a delete). -/
def assocErase {α : Type} (m : List (String × α)) (k : String) :
    List (String × α) :=
  m.filter (fun kv => kv.1 ≠ k)

/-- `SyncEngine::collect_all_paths` (sync_engine.rs, lines 193-212): the
union of the three scans.  The Rust code collects a `HashSet` in
unspecified order; here the union keeps first occurrences in
local-gdrive-smb order, a deterministic refinement. -/
def collect_all_paths (localF gdriveF smbF : ScanMap) : List String :=
  (localF.map Prod.fst ++ gdriveF.map Prod.fst ++ smbF.map Prod.fst).foldl
    (fun acc p => if p ∈ acc then acc else acc ++ [p]) []

/-- `SyncEngine::get_last_known_state` (sync_engine.rs, lines 604-630)
composed with `DbOperations::get_file_states`
(src/src-tauri/src/db/models.rs): group the profile rows of the baseline
table into a per-path triple of last-known hashes.  The fold mirrors the
`entry(..).or_insert_with(..)` plus field-assignment loop. -/
def get_last_known_state (profile_id : Int) (db : List FileState) :
    List (String × LastKnownState) :=
  (db.filter (fun st => st.profile_id = profile_id)).foldl
    (fun m st =>
      let entry := (List.lookup st.file_path m).getD ⟨none, none, none⟩
      let entry2 :=
        match st.location with
        | .Local => { entry with local_state := st.content_hash }
        | .GoogleDrive => { entry with gdrive_state := st.content_hash }
        | .Smb => { entry with smb_state := st.content_hash }
      if (List.lookup st.file_path m).isSome then
        m.map (fun kv => if kv.1 = st.file_path then (st.file_path, entry2) else kv)
      else
        m ++ [(st.file_path, entry2)])
    []

/-- The row written by Phase 6 for one observed snapshot (the
`FileState { .. }` literals in `update_last_known_state`,
sync_engine.rs, lines 632-699). -/
def mkFileState (profile_id : Int) (path : String) (location : FileLocation)
    (snapshot : FileSnapshot) (now : Nat) : FileState :=
  { id := none
    profile_id := profile_id
    file_path := path
    location := location
    content_hash := snapshot.hash
    size_bytes := some (snapshot.size : Int)
    modified_at := some snapshot.modified
    synced_at := some now
    status := .Synced
    metadata := none }

/-- Key equality of the SQL upsert conflict target
`(profile_id, file_path, location)`. -/
def sameKey (a b : FileState) : Bool :=
  a.profile_id = b.profile_id ∧ a.file_path = b.file_path ∧ a.location = b.location

/-- `DbOperations::upsert_file_state` (src/src-tauri/src/db/models.rs,
lines 51-75): `INSERT .. ON CONFLICT(profile_id, file_path, location) DO
UPDATE` overwriting all non-key columns; the row id of an existing row is
kept. -/
def upsert_file_state (db : List FileState) (s : FileState) : List FileState :=
  if db.any (fun r => sameKey r s) then
    db.map (fun r =>
      if sameKey r s then
        { r with content_hash := s.content_hash, size_bytes := s.size_bytes,
                 modified_at := s.modified_at, synced_at := s.synced_at,
                 status := s.status, metadata := s.metadata }
      else r)
  else
    db ++ [s]

/-- `SyncEngine::update_last_known_state` (sync_engine.rs, lines
632-699): Phase 6 commit; upsert one `Synced` row per observed snapshot
of each scan, local then gdrive then smb. -/
def update_last_known_state (profile_id : Int) (now : Nat)
    (localF gdriveF smbF : ScanMap) (db : List FileState) : List FileState :=
  let db1 := localF.foldl
    (fun d kv => upsert_file_state d (mkFileState profile_id kv.1 .Local kv.2 now)) db
  let db2 := gdriveF.foldl
    (fun d kv => upsert_file_state d (mkFileState profile_id kv.1 .GoogleDrive kv.2 now)) db1
  smbF.foldl
    (fun d kv => upsert_file_state d (mkFileState profile_id kv.1 .Smb kv.2 now)) db2

/-- All planned `Delete` operations, with their target location, in plan
order (the inner double loop of `check_deletion_safety`). -/
def planned_deletions (planned : List (String × SyncAction)) :
    List (FileLocation × String) :=
  planned.foldr
    (fun pa acc =>
      match pa.2 with
      | .Sync ops =>
        (ops.filterMap (fun op =>
          match op with
          | .Delete location p => some (location, p)
          | _ => none)) ++ acc
      | _ => acc)
    []

/-- The absolute-threshold abort message of `check_deletion_safety`
(sync_engine.rs, lines 573-584), abridged to the numeric content: total
deletion count, the limit 50, and the per-location counts. -/
def deletion_abs_msg (count ld gd sd : Nat) : String :=
  "SAFETY CHECK FAILED: Sync would delete " ++ toString count ++
  " files (exceeds limit of 50). Deletions by location: Local: " ++
  toString ld ++ ", Google Drive: " ++ toString gd ++ ", Samba: " ++
  toString sd ++ "."

/-- The relative-threshold abort message of `check_deletion_safety`
(sync_engine.rs, lines 586-598), abridged to the numeric content: the
deletion count, the total path count (the Rust message renders their
ratio as a percentage), and the per-location counts. -/
def deletion_rel_msg (count total ld gd sd : Nat) : String :=
  "SAFETY CHECK FAILED: Sync would delete " ++ toString count ++ " of " ++
  toString total ++
  " files (exceeds 30 percent threshold). Deletions by location: Local: " ++
  toString ld ++ ", Google Drive: " ++ toString gd ++ ", Samba: " ++
  toString sd ++ "."

/-- `SyncEngine::check_deletion_safety` (sync_engine.rs, lines 539-602).

The Rust relative test is `(d as f32 / t as f32) > 0.30f32`.  It is
modelled here by the integer test `3 * t < 10 * d`, which is exactly
equivalent on every input this branch can see:
* the branch runs only after `d > 50` failed, so `d ≤ 50`;
* if `10 * d > 3 * t` then (with `d ≤ 50`) `t < 10 * d / 3 ≤ 167`, and
  the rational `d / t` exceeds `3 / 10` by at least `1 / (10 * t) >
  1 / 1680`, far more than one ulp of `f32` near `0.3`, so the rounded
  `f32` quotient is strictly above `0.30f32` (which itself is the `f32`
  nearest `3 / 10`, about `0.30000001`); with `t = 0` and `d > 0` the
  quotient is `+inf` and also trips the test;
* if `10 * d ≤ 3 * t` then the exact quotient is at most `3 / 10`, and
  rounding to nearest is monotone, so the `f32` quotient is at most
  `0.30f32` and the strict test fails.  -/
def check_deletion_safety (planned : List (String × SyncAction))
    (total_files : Nat) : Except UvcadError Unit :=
  let dels := planned_deletions planned
  let deletion_count := dels.length
  let local_deletions := (dels.filter (fun d => d.1 = .Local)).length
  let gdrive_deletions := (dels.filter (fun d => d.1 = .GoogleDrive)).length
  let smb_deletions := (dels.filter (fun d => d.1 = .Smb)).length
  if deletion_count = 0 then
    .ok ()
  else if 50 < deletion_count then
    .error (.SyncFailed
      (deletion_abs_msg deletion_count local_deletions gdrive_deletions smb_deletions))
  else if 3 * total_files < 10 * deletion_count then
    .error (.SyncFailed
      (deletion_rel_msg deletion_count total_files local_deletions
        gdrive_deletions smb_deletions))
  else
    .ok ()

/-- `SyncResult` from sync_engine.rs. -/
structure SyncResult where
  files_synced : Nat
  files_failed : Nat
  files_conflict : Nat
  conflicts : List ConflictInfo
deriving DecidableEq

/-- The state of the three storage locations, as the three providers
would list them.  Hashing is deterministic, so a rescan of an unchanged
location returns the same map. -/
structure World where
  local_files : ScanMap
  gdrive_files : ScanMap
  smb_files : ScanMap
deriving DecidableEq

/-- The listing of one location. -/
def World.at_loc (w : World) (loc : FileLocation) : ScanMap :=
  match loc with
  | .Local => w.local_files
  | .GoogleDrive => w.gdrive_files
  | .Smb => w.smb_files

/-- Replace the listing of one location. -/
def World.set_loc (w : World) (loc : FileLocation) (m : ScanMap) : World :=
  match loc with
  | .Local => { w with local_files := m }
  | .GoogleDrive => { w with gdrive_files := m }
  | .Smb => { w with smb_files := m }

/-- Effect of one executed operation on the world, assuming the transfer
succeeds: `transfer_file` (sync_engine.rs, lines 475-512) downloads the
source content to staging and uploads it to the destination, so the
destination afterwards lists the source snapshot (at its new location);
`delete_file` (lines 514-523) removes the path from the target.  An
upload whose source vanished is a failed transfer; failures leave the
destination unchanged. -/
def applyOp (w : World) (op : SyncOperation) : World :=
  match op with
  | .Delete location p => w.set_loc location (assocErase (w.at_loc location) p)
  | .Upload from_loc to_loc p =>
    match List.lookup p (w.at_loc from_loc) with
    | none => w
    | some snap =>
      w.set_loc to_loc
        (assocInsert (w.at_loc to_loc) p { snap with location := to_loc })

/-- Step 3b of `SyncEngine::start_sync` (sync_engine.rs, lines 113-160):
execute the planned actions in order, counting synced and conflicted
files and collecting conflicts; all executed operations succeed in this
model (`files_failed` stays 0).  Also returns the list of operations
actually executed. -/
def executeActions (w : World) (planned : List (String × SyncAction)) :
    World × SyncResult × List SyncOperation :=
  planned.foldl
    (fun acc pa =>
      let w := acc.1
      let res := acc.2.1
      let tr := acc.2.2
      match pa.2 with
      | .NoAction =>
        (w, { res with files_synced := res.files_synced + 1 }, tr)
      | .Sync ops =>
        (ops.foldl applyOp w,
         { res with files_synced := res.files_synced + 1 }, tr ++ ops)
      | .Conflict c =>
        (w, { res with files_conflict := res.files_conflict + 1,
                        conflicts := res.conflicts ++ [c] }, tr))
    (w, ⟨0, 0, 0, []⟩, [])

/-- The planned-operation list built by the first pass of
`SyncEngine::start_sync` (sync_engine.rs, lines 98-108). -/
def planned_actions (cfg : EngineCfg) (profile_id : Int) (w : World)
    (db : List FileState) : List (String × SyncAction) :=
  let last_known := get_last_known_state profile_id db
  (collect_all_paths w.local_files w.gdrive_files w.smb_files).map
    (fun p =>
      (p, determine_sync_action cfg p
            (List.lookup p w.local_files)
            (List.lookup p w.gdrive_files)
            (List.lookup p w.smb_files)
            (List.lookup p last_known)))

instance instDecEqExcept {ε α : Type} [DecidableEq ε] [DecidableEq α] :
    DecidableEq (Except ε α) := fun a b =>
  match a, b with
  | .error e, .error f =>
    if h : e = f then .isTrue (by rw [h])
    else .isFalse (fun hc => h (by injection hc))
  | .error e, .ok y => .isFalse (fun hc => Except.noConfusion hc)
  | .ok x, .error f => .isFalse (fun hc => Except.noConfusion hc)
  | .ok x, .ok y =>
    if h : x = y then .isTrue (by rw [h])
    else .isFalse (fun hc => h (by injection hc))

/-- Everything one run of the engine produces: the returned
`Result<SyncResult>`, the world after the executed transfers, the
baseline table after Phase 6, and the trace of executed operations. -/
structure RunOutcome where
  res : Except UvcadError SyncResult
  world : World
  db : List FileState
  executed : List SyncOperation
deriving DecidableEq

/-- `SyncEngine::start_sync` (sync_engine.rs, lines 62-168): scan (the
scans are the current listings), load the baseline, classify every path,
check deletion safety (aborting the run before any operation when it
fails), execute, and commit the scan observations taken at the start of
the run. -/
def start_sync (cfg : EngineCfg) (profile_id : Int) (now : Nat) (w : World)
    (db : List FileState) : RunOutcome :=
  let planned := planned_actions cfg profile_id w db
  let total_files :=
    (collect_all_paths w.local_files w.gdrive_files w.smb_files).length
  match check_deletion_safety planned total_files with
  | .error e => ⟨.error e, w, db, []⟩
  | .ok _ =>
    let exec := executeActions w planned
    let db2 := update_last_known_state profile_id now
      w.local_files w.gdrive_files w.smb_files db
    ⟨.ok exec.2.1, exec.1, db2, exec.2.2⟩

theorem check_deletion_safety_breach (planned : List (String × SyncAction))
    (total : Nat)
    (h : 50 < (planned_deletions planned).length ∨
         3 * total < 10 * (planned_deletions planned).length) :
    ∃ m : String,
      check_deletion_safety planned total = .error (.SyncFailed m) ∧
      (m = deletion_abs_msg (planned_deletions planned).length
            ((planned_deletions planned).filter (fun d => d.1 = .Local)).length
            ((planned_deletions planned).filter (fun d => d.1 = .GoogleDrive)).length
            ((planned_deletions planned).filter (fun d => d.1 = .Smb)).length ∨
       m = deletion_rel_msg (planned_deletions planned).length total
            ((planned_deletions planned).filter (fun d => d.1 = .Local)).length
            ((planned_deletions planned).filter (fun d => d.1 = .GoogleDrive)).length
            ((planned_deletions planned).filter (fun d => d.1 = .Smb)).length) := by
  have hd : (planned_deletions planned).length ≠ 0 := by
    rcases h with h | h <;> omega
  by_cases habs : 50 < (planned_deletions planned).length
  · refine ⟨_, ?_, Or.inl rfl⟩
    unfold check_deletion_safety
    simp [hd, habs]
  · have hrel : 3 * total < 10 * (planned_deletions planned).length := by
      rcases h with h | h
      · exact absurd h habs
      · exact h
    refine ⟨_, ?_, Or.inr rfl⟩
    unfold check_deletion_safety
    simp [hd, habs, hrel]

/-- C2: whenever the planned operation list of a run contains more than
50 `Delete` operations, or more than 30 percent of the number of distinct
paths (the integer inequality `3 * paths < 10 * deletions` is exactly the
f32 test of the code on this branch, see `check_deletion_safety`),
`start_sync` returns a `SyncFailed` error whose message names the
per-location deletion counts, executes no Upload or Delete operation, and
leaves the world and the baseline unchanged. -/
theorem start_sync_safety_interlock (cfg : EngineCfg) (profile_id : Int)
    (now : Nat) (w : World) (db : List FileState)
    (hbreach :
      50 < (planned_deletions (planned_actions cfg profile_id w db)).length ∨
      3 * (collect_all_paths w.local_files w.gdrive_files w.smb_files).length <
        10 * (planned_deletions (planned_actions cfg profile_id w db)).length) :
    ∃ m : String,
      start_sync cfg profile_id now w db =
        ⟨.error (.SyncFailed m), w, db, []⟩ ∧
      (m = deletion_abs_msg
            (planned_deletions (planned_actions cfg profile_id w db)).length
            ((planned_deletions (planned_actions cfg profile_id w db)).filter
              (fun d => d.1 = .Local)).length
            ((planned_deletions (planned_actions cfg profile_id w db)).filter
              (fun d => d.1 = .GoogleDrive)).length
            ((planned_deletions (planned_actions cfg profile_id w db)).filter
              (fun d => d.1 = .Smb)).length ∨
       m = deletion_rel_msg
            (planned_deletions (planned_actions cfg profile_id w db)).length
            (collect_all_paths w.local_files w.gdrive_files w.smb_files).length
            ((planned_deletions (planned_actions cfg profile_id w db)).filter
              (fun d => d.1 = .Local)).length
            ((planned_deletions (planned_actions cfg profile_id w db)).filter
              (fun d => d.1 = .GoogleDrive)).length
            ((planned_deletions (planned_actions cfg profile_id w db)).filter
              (fun d => d.1 = .Smb)).length) := by
  obtain ⟨m, hcheck, hm⟩ := check_deletion_safety_breach
    (planned_actions cfg profile_id w db)
    (collect_all_paths w.local_files w.gdrive_files w.smb_files).length hbreach
  refine ⟨m, ?_, hm⟩
  unfold start_sync
  simp only [hcheck]

/-- C2 witness: one path known on both sides, deleted locally; the plan
holds one gdrive deletion out of one path, 100 percent, breaching the
relative threshold: the run aborts with the relative-threshold message
and changes nothing. -/
theorem start_sync_safety_interlock_witness :
    (50 < (planned_deletions (planned_actions ⟨true, false⟩ 1
        ⟨[], [("p", ⟨"p", some "h", 5, 10, .GoogleDrive⟩)], []⟩
        [⟨none, 1, "p", .Local, some "h", some 5, some 10, some 50, .Synced, none⟩,
         ⟨none, 1, "p", .GoogleDrive, some "h", some 5, some 10, some 50, .Synced, none⟩])).length ∨
      3 * (collect_all_paths ([] : ScanMap)
            [("p", ⟨"p", some "h", 5, 10, .GoogleDrive⟩)] ([] : ScanMap)).length <
        10 * (planned_deletions (planned_actions ⟨true, false⟩ 1
          ⟨[], [("p", ⟨"p", some "h", 5, 10, .GoogleDrive⟩)], []⟩
          [⟨none, 1, "p", .Local, some "h", some 5, some 10, some 50, .Synced, none⟩,
           ⟨none, 1, "p", .GoogleDrive, some "h", some 5, some 10, some 50, .Synced, none⟩])).length) ∧
    (∃ m : String,
      start_sync ⟨true, false⟩ 1 100
          ⟨[], [("p", ⟨"p", some "h", 5, 10, .GoogleDrive⟩)], []⟩
          [⟨none, 1, "p", .Local, some "h", some 5, some 10, some 50, .Synced, none⟩,
           ⟨none, 1, "p", .GoogleDrive, some "h", some 5, some 10, some 50, .Synced, none⟩] =
        ⟨.error (.SyncFailed m),
          ⟨[], [("p", ⟨"p", some "h", 5, 10, .GoogleDrive⟩)], []⟩,
          [⟨none, 1, "p", .Local, some "h", some 5, some 10, some 50, .Synced, none⟩,
           ⟨none, 1, "p", .GoogleDrive, some "h", some 5, some 10, some 50, .Synced, none⟩],
          []⟩ ∧
      (m = deletion_abs_msg
            (planned_deletions (planned_actions ⟨true, false⟩ 1
              ⟨[], [("p", ⟨"p", some "h", 5, 10, .GoogleDrive⟩)], []⟩
              [⟨none, 1, "p", .Local, some "h", some 5, some 10, some 50, .Synced, none⟩,
               ⟨none, 1, "p", .GoogleDrive, some "h", some 5, some 10, some 50, .Synced, none⟩])).length
            ((planned_deletions (planned_actions ⟨true, false⟩ 1
              ⟨[], [("p", ⟨"p", some "h", 5, 10, .GoogleDrive⟩)], []⟩
              [⟨none, 1, "p", .Local, some "h", some 5, some 10, some 50, .Synced, none⟩,
               ⟨none, 1, "p", .GoogleDrive, some "h", some 5, some 10, some 50, .Synced, none⟩])).filter
              (fun d => d.1 = .Local)).length
            ((planned_deletions (planned_actions ⟨true, false⟩ 1
              ⟨[], [("p", ⟨"p", some "h", 5, 10, .GoogleDrive⟩)], []⟩
              [⟨none, 1, "p", .Local, some "h", some 5, some 10, some 50, .Synced, none⟩,
               ⟨none, 1, "p", .GoogleDrive, some "h", some 5, some 10, some 50, .Synced, none⟩])).filter
              (fun d => d.1 = .GoogleDrive)).length
            ((planned_deletions (planned_actions ⟨true, false⟩ 1
              ⟨[], [("p", ⟨"p", some "h", 5, 10, .GoogleDrive⟩)], []⟩
              [⟨none, 1, "p", .Local, some "h", some 5, some 10, some 50, .Synced, none⟩,
               ⟨none, 1, "p", .GoogleDrive, some "h", some 5, some 10, some 50, .Synced, none⟩])).filter
              (fun d => d.1 = .Smb)).length ∨
       m = deletion_rel_msg
            (planned_deletions (planned_actions ⟨true, false⟩ 1
              ⟨[], [("p", ⟨"p", some "h", 5, 10, .GoogleDrive⟩)], []⟩
              [⟨none, 1, "p", .Local, some "h", some 5, some 10, some 50, .Synced, none⟩,
               ⟨none, 1, "p", .GoogleDrive, some "h", some 5, some 10, some 50, .Synced, none⟩])).length
            (collect_all_paths ([] : ScanMap)
              [("p", ⟨"p", some "h", 5, 10, .GoogleDrive⟩)] ([] : ScanMap)).length
            ((planned_deletions (planned_actions ⟨true, false⟩ 1
              ⟨[], [("p", ⟨"p", some "h", 5, 10, .GoogleDrive⟩)], []⟩
              [⟨none, 1, "p", .Local, some "h", some 5, some 10, some 50, .Synced, none⟩,
               ⟨none, 1, "p", .GoogleDrive, some "h", some 5, some 10, some 50, .Synced, none⟩])).filter
              (fun d => d.1 = .Local)).length
            ((planned_deletions (planned_actions ⟨true, false⟩ 1
              ⟨[], [("p", ⟨"p", some "h", 5, 10, .GoogleDrive⟩)], []⟩
              [⟨none, 1, "p", .Local, some "h", some 5, some 10, some 50, .Synced, none⟩,
               ⟨none, 1, "p", .GoogleDrive, some "h", some 5, some 10, some 50, .Synced, none⟩])).filter
              (fun d => d.1 = .GoogleDrive)).length
            ((planned_deletions (planned_actions ⟨true, false⟩ 1
              ⟨[], [("p", ⟨"p", some "h", 5, 10, .GoogleDrive⟩)], []⟩
              [⟨none, 1, "p", .Local, some "h", some 5, some 10, some 50, .Synced, none⟩,
               ⟨none, 1, "p", .GoogleDrive, some "h", some 5, some 10, some 50, .Synced, none⟩])).filter
              (fun d => d.1 = .Smb)).length)) :=
  ⟨by decide,
   start_sync_safety_interlock ⟨true, false⟩ 1 100
     ⟨[], [("p", ⟨"p", some "h", 5, 10, .GoogleDrive⟩)], []⟩
     [⟨none, 1, "p", .Local, some "h", some 5, some 10, some 50, .Synced, none⟩,
      ⟨none, 1, "p", .GoogleDrive, some "h", some 5, some 10, some 50, .Synced, none⟩]
     (by decide)⟩

/-- C4: failing input for idempotence.  Both remotes are configured, the
baseline is empty, only the local tree holds `p` with hash `"h"`.  The
first run uploads `p` to gdrive and smb and commits only the scan taken
before execution, so the baseline records `p` for local only.  The second
run — with no external change — then sees gdrive and smb as changed,
and because the identical-hash exception of `determine_sync_action`
additionally requires a changed local side, it reports a `Conflict` whose
three current hashes are all equal, instead of the empty conflict list
the claim requires (it does execute zero operations). -/
theorem sync_twice_spurious_conflict :
    (start_sync ⟨true, true⟩ 1 100
        ⟨[("p", ⟨"p", some "h", 5, 10, .Local⟩)], [], []⟩ []).res =
      .ok ⟨1, 0, 0, []⟩ ∧
    (start_sync ⟨true, true⟩ 1 100
        ⟨[("p", ⟨"p", some "h", 5, 10, .Local⟩)], [], []⟩ []).executed =
      [.Upload .Local .GoogleDrive "p", .Upload .Local .Smb "p"] ∧
    (start_sync ⟨true, true⟩ 1 200
        (start_sync ⟨true, true⟩ 1 100
          ⟨[("p", ⟨"p", some "h", 5, 10, .Local⟩)], [], []⟩ []).world
        (start_sync ⟨true, true⟩ 1 100
          ⟨[("p", ⟨"p", some "h", 5, 10, .Local⟩)], [], []⟩ []).db).executed =
      [] ∧
    (start_sync ⟨true, true⟩ 1 200
        (start_sync ⟨true, true⟩ 1 100
          ⟨[("p", ⟨"p", some "h", 5, 10, .Local⟩)], [], []⟩ []).world
        (start_sync ⟨true, true⟩ 1 100
          ⟨[("p", ⟨"p", some "h", 5, 10, .Local⟩)], [], []⟩ []).db).res =
      .ok ⟨0, 0, 1, [⟨"p", some "h", some "h", some "h"⟩]⟩ := by
  decide

/-- The baseline rows of one path. -/
def rowsForPath (db : List FileState) (p : String) : List FileState :=
  db.filter (fun r => r.file_path = p)

theorem sameKey_file_path {r s : FileState} (h : sameKey r s = true) :
    r.file_path = s.file_path := by
  simp only [sameKey, decide_eq_true_eq] at h
  exact h.2.1

theorem rowsForPath_map_overwrite (s : FileState) (p : String)
    (h : s.file_path ≠ p) :
    ∀ db : List FileState,
      rowsForPath
        (db.map (fun r =>
          if sameKey r s then
            { r with content_hash := s.content_hash, size_bytes := s.size_bytes,
                     modified_at := s.modified_at, synced_at := s.synced_at,
                     status := s.status, metadata := s.metadata }
          else r)) p =
      rowsForPath db p := by
  intro db
  induction db with
  | nil => rfl
  | cons r t ih =>
    by_cases hk : sameKey r s
    · have hfp : r.file_path = s.file_path := sameKey_file_path hk
      have hne : ¬ (r.file_path = p) := by rw [hfp]; exact h
      simp [rowsForPath, hk, hne] at ih ⊢
      exact ih
    · by_cases hrp : r.file_path = p
      · simp [rowsForPath, hk, hrp] at ih ⊢
        exact ih
      · simp [rowsForPath, hk, hrp] at ih ⊢
        exact ih

theorem rowsForPath_upsert_ne (db : List FileState) (s : FileState)
    (p : String) (h : s.file_path ≠ p) :
    rowsForPath (upsert_file_state db s) p = rowsForPath db p := by
  unfold upsert_file_state
  by_cases hany : db.any (fun r => sameKey r s)
  · simp only [hany, if_true]
    exact rowsForPath_map_overwrite s p h db
  · simp only [hany, if_false]
    simp [rowsForPath, h]

theorem rowsForPath_foldl_upserts (loc : FileLocation) (profile_id : Int)
    (now : Nat) (p : String) :
    ∀ (l : ScanMap) (db : List FileState), (∀ kv ∈ l, kv.1 ≠ p) →
      rowsForPath
        (l.foldl
          (fun d kv => upsert_file_state d (mkFileState profile_id kv.1 loc kv.2 now))
          db) p =
        rowsForPath db p := by
  intro l
  induction l with
  | nil => intro db _; rfl
  | cons kv t ih =>
    intro db hmem
    have hk : kv.1 ≠ p := hmem kv (List.mem_cons_self kv t)
    have ht : ∀ kv2 ∈ t, kv2.1 ≠ p := fun kv2 h2 => hmem kv2 (List.mem_cons_of_mem kv h2)
    simp only [List.foldl_cons]
    rw [ih _ ht, rowsForPath_upsert_ne _ _ _ hk]

theorem lookup_none_keys {α : Type} (p : String) :
    ∀ (l : List (String × α)), List.lookup p l = none → ∀ kv ∈ l, kv.1 ≠ p := by
  intro l
  induction l with
  | nil => intro _ kv hkv; cases hkv
  | cons hd t ih =>
    intro hlk kv hkv
    rw [List.lookup_cons] at hlk
    by_cases hpk : p == hd.1
    · simp [hpk] at hlk
    · have hpk2 : (p == hd.1) = false := by
        cases hbe : p == hd.1
        · rfl
        · exact absurd hbe hpk
      rw [hpk2] at hlk
      simp only [cond_false] at hlk
      rcases List.mem_cons.mp hkv with hkv | hkv
      · subst hkv
        intro hc
        rw [hc] at hpk2
        simp at hpk2
      · exact ih hlk kv hkv

/-- C9: the Phase 6 commit only upserts rows for observed files; for a
path absent from all three scans of the run, the baseline rows are
byte-for-byte unchanged (in particular never deleted). -/
theorem commit_frame_unobserved_paths (profile_id : Int) (now : Nat)
    (localF gdriveF smbF : ScanMap) (db : List FileState) (p : String)
    (hl : List.lookup p localF = none)
    (hg : List.lookup p gdriveF = none)
    (hs : List.lookup p smbF = none) :
    rowsForPath (update_last_known_state profile_id now localF gdriveF smbF db) p =
      rowsForPath db p := by
  unfold update_last_known_state
  rw [rowsForPath_foldl_upserts .Smb profile_id now p smbF _
        (lookup_none_keys p smbF hs),
      rowsForPath_foldl_upserts .GoogleDrive profile_id now p gdriveF _
        (lookup_none_keys p gdriveF hg),
      rowsForPath_foldl_upserts .Local profile_id now p localF _
        (lookup_none_keys p localF hl)]

/-- C9 witness: a baseline row for a path observed by no scan survives a
commit that upserts a different path. -/
theorem commit_frame_unobserved_paths_witness :
    rowsForPath
      (update_last_known_state 1 100
        [("other", ⟨"other", some "h2", 3, 9, .Local⟩)] [] []
        [⟨none, 1, "q", .Local, some "h", some 5, some 10, some 50, .Synced, none⟩])
      "q" =
      rowsForPath
        [⟨none, 1, "q", .Local, some "h", some 5, some 10, some 50, .Synced, none⟩]
        "q" :=
  commit_frame_unobserved_paths 1 100
    [("other", ⟨"other", some "h2", 3, 9, .Local⟩)] [] []
    [⟨none, 1, "q", .Local, some "h", some 5, some 10, some 50, .Synced, none⟩]
    "q" (by decide) (by decide) (by decide)

/-- ASCII lowercase of one character. -/
def asciiLowerChar (c : Char) : Char :=
  if c.toNat ≥ 65 ∧ c.toNat ≤ 90 then Char.ofNat (c.toNat + 32) else c

/-- Rust `str::eq_ignore_ascii_case`: equality after mapping ASCII
uppercase letters to lowercase. -/
def eqIgnoreAsciiCase (a b : String) : Bool :=
  a.data.map asciiLowerChar = b.data.map asciiLowerChar

/-!
Provider `download` models.  A location is a map from relative path to
file content; `download p dest` on a filesystem-backed provider is
`fs::copy` and is modelled as returning the content that lands at
`dest`.  The `knownHash` argument of the Local and Share models is the
hash the provider advertised for the path at scan time — the value the
specification says the destination must be verified against; the Rust
bodies (`LocalFsProvider::download`, local_fs.rs lines 100-104, and
`SambaProvider::download`, samba.rs lines 134-138) never read it.
-/

/-- `LocalFsProvider::download` (src/src-tauri/src/providers/local_fs.rs,
lines 100-104): plain `fs::copy`, no verification. -/
def local_fs_download (knownHash : Option String)
    (root : List (String × String)) (p : String) : Except UvcadError String :=
  match List.lookup p root with
  | some content => .ok content
  | none => .error (.IoError "copy: source missing")

/-- `SambaProvider::download` (src/src-tauri/src/providers/samba.rs,
lines 134-138): plain `fs::copy`; note it does not consult the `mounted`
flag either. -/
def samba_download (mounted : Bool) (knownHash : Option String)
    (share : List (String × String)) (p : String) : Except UvcadError String :=
  match List.lookup p share with
  | some content => .ok content
  | none => .error (.IoError "copy: source missing")

/-- `GoogleDriveProvider::download`
(src/src-tauri/src/providers/google_drive.rs, lines 428-450).  The
resolved remote file is `(content, md5_checksum)`; `md5` is the MD5
digest function (kept abstract), and the mismatch message is abridged to
its prefix. -/
def google_drive_download (md5 : String → String) (p : String)
    (file : Option (String × Option String)) : Except UvcadError String :=
  match file with
  | none => .error (.FileNotFound p)
  | some (content, md5sum) =>
    match md5sum with
    | some expected =>
      if eqIgnoreAsciiCase (md5 content) expected then .ok content
      else .error (.SyncFailed ("Download integrity check failed for " ++ p))
    | none => .ok content

/-- C3 counterexample: the Share and Local providers succeed regardless
of the known remote hash.  Run twice with two different claimed remote
hashes `"00"` and `"ff"` for the same content: both downloads succeed
identically, yet the content hashes to at most one of the two values, so
at least one of the runs is a success whose destination hash differs
from the known remote hash — no integrity error occurs. -/
theorem download_ignores_known_hash_cex :
    samba_download false (some "00") [("f", "data")] "f" = .ok "data" ∧
    samba_download false (some "ff") [("f", "data")] "f" = .ok "data" ∧
    local_fs_download (some "00") [("f", "data")] "f" = .ok "data" ∧
    local_fs_download (some "ff") [("f", "data")] "f" = .ok "data" ∧
    ("00" : String) ≠ "ff" := by
  refine ⟨rfl, rfl, rfl, rfl, by decide⟩

/-- C3 amended: only the Cloud provider verifies a download.  A Google
Drive download with a known MD5 succeeds iff the destination content
digests (case-insensitively) to that checksum, and fails with the
integrity error on mismatch; with no known checksum it succeeds
unverified.  Local and Share downloads return the source content
unconditionally, whatever hash is known for the path. -/
theorem download_verification_by_provider (md5 : String → String)
    (p q c k : String) (knownHash : Option String) (m : Bool)
    (root share : List (String × String)) :
    (google_drive_download md5 p (some (c, some k)) = .ok c ↔
      eqIgnoreAsciiCase (md5 c) k = true) ∧
    (eqIgnoreAsciiCase (md5 c) k = false →
      google_drive_download md5 p (some (c, some k)) =
        .error (.SyncFailed ("Download integrity check failed for " ++ p))) ∧
    google_drive_download md5 p (some (c, none)) = .ok c ∧
    local_fs_download knownHash ((q, c) :: root) q = .ok c ∧
    samba_download m knownHash ((q, c) :: share) q = .ok c := by
  refine ⟨?_, ?_, rfl, ?_, ?_⟩
  · cases hv : eqIgnoreAsciiCase (md5 c) k <;>
      simp [google_drive_download, hv]
  · intro hv
    simp [google_drive_download, hv]
  · simp [local_fs_download, List.lookup]
  · simp [samba_download, List.lookup]

/-- C3 amended, witness: a digest function sending the content to
`"aa"`, checked against the differing known checksum `"bb"`, makes the
Cloud download fail with the integrity error. -/
theorem download_verification_by_provider_witness :
    google_drive_download (fun _ => "aa") "f" (some ("data", some "bb")) =
      .error (.SyncFailed ("Download integrity check failed for " ++ "f")) :=
  (download_verification_by_provider (fun _ => "aa") "f" "q" "data" "bb"
      none false [] []).2.1 (by decide)

/-!
Samba provider operations (src/src-tauri/src/providers/samba.rs).  The
share is a map from relative path to content; `mounted` is the provider
field set by `initialize`.  Listing results and metadata are abridged to
the path list and the optional content — the claim under test concerns
only which operations check `mounted`.
-/

/-- `SambaProvider::list_files` (samba.rs, lines 93-100): checks
`mounted`. -/
def samba_list_files (mounted : Bool) (share : List (String × String)) :
    Except UvcadError (List String) :=
  if !mounted then .error (.SmbNotAccessible "SMB share not mounted")
  else .ok (share.map Prod.fst)

/-- `SambaProvider::get_metadata` (samba.rs, lines 102-127): checks
`mounted`. -/
def samba_get_metadata (mounted : Bool) (share : List (String × String))
    (p : String) : Except UvcadError (Option String) :=
  if !mounted then .error (.SmbNotAccessible "SMB share not mounted")
  else .ok (List.lookup p share)

/-- `SambaProvider::exists` (samba.rs, lines 129-132): no `mounted`
check. -/
def samba_exists (mounted : Bool) (share : List (String × String))
    (p : String) : Except UvcadError Bool :=
  .ok (List.lookup p share).isSome

/-- `SambaProvider::upload` (samba.rs, lines 140-149): `create_dir_all`
plus `fs::copy`; no `mounted` check.  Returns the share after the copy. -/
def samba_upload (mounted : Bool) (share : List (String × String))
    (source_content : String) (p : String) :
    Except UvcadError (List (String × String)) :=
  .ok (assocInsert share p source_content)

/-- `SambaProvider::delete` (samba.rs, lines 151-155): `fs::remove_file`
(an error when the path is absent); no `mounted` check.  Returns the
share after the removal. -/
def samba_delete (mounted : Bool) (share : List (String × String))
    (p : String) : Except UvcadError (List (String × String)) :=
  match List.lookup p share with
  | some _ => .ok (assocErase share p)
  | none => .error (.IoError "remove_file: no such file")

/-- C8 counterexample: with the mount never confirmed (`mounted =
false`), `exists`, `download`, `upload` and `delete` all succeed against
a reachable path instead of failing with `SmbNotAccessible`; only
`list_files` (and `get_metadata`) fail as the claim demands. -/
theorem samba_ops_unmounted_cex :
    samba_exists false [("a.txt", "data")] "a.txt" = .ok true ∧
    samba_download false (some "k") [("a.txt", "data")] "a.txt" = .ok "data" ∧
    samba_upload false [("a.txt", "data")] "new" "b.txt" =
      .ok [("a.txt", "data"), ("b.txt", "new")] ∧
    samba_delete false [("a.txt", "data")] "a.txt" = .ok [] ∧
    samba_list_files false [("a.txt", "data")] =
      .error (.SmbNotAccessible "SMB share not mounted") := by
  refine ⟨rfl, rfl, by decide, by decide, rfl⟩

/-- C8 amended: before the mount-health precheck has confirmed the mount,
exactly `list_files` and `get_metadata` fail with `SmbNotAccessible`;
`exists`, `download`, `upload` and `delete` behave identically whether or
not the mount was confirmed. -/
theorem samba_mount_gating (share : List (String × String))
    (knownHash : Option String) (source_content p : String) :
    samba_list_files false share =
      .error (.SmbNotAccessible "SMB share not mounted") ∧
    samba_get_metadata false share p =
      .error (.SmbNotAccessible "SMB share not mounted") ∧
    samba_exists false share p = samba_exists true share p ∧
    samba_download false knownHash share p = samba_download true knownHash share p ∧
    samba_upload false share source_content p = samba_upload true share source_content p ∧
    samba_delete false share p = samba_delete true share p := by
  exact ⟨rfl, rfl, rfl, rfl, rfl, rfl⟩

/-- `OAuthTokens` from src/src-tauri/src/utils/keyring.rs as used by the
auth manager: access token, optional refresh token, optional expiry
instant (unix seconds). -/
structure OAuthTokens where
  access_token : String
  refresh_token : Option String
  expires_at : Option Int
deriving DecidableEq

/-- The relevant content of a successful token-endpoint response
(`oauth2::StandardTokenResponse`): new access token, optional new
refresh token, optional lifetime in seconds. -/
structure TokenExchangeResponse where
  access_token : String
  refresh_token : Option String
  expires_in : Option Int
deriving DecidableEq

/-- `AuthManager::refresh_token` (src/src-tauri/src/core/auth_manager.rs,
lines 169-197), given the network exchange succeeds with `resp` observed
at instant `respNow`: fails when no refresh token is stored; otherwise
builds the new tokens — keeping the previously stored refresh token when
the response omits one — and persists them (the returned value is what
`store_tokens` writes). -/
def refresh_token (tokens : OAuthTokens) (resp : TokenExchangeResponse)
    (respNow : Int) : Except UvcadError OAuthTokens :=
  match tokens.refresh_token with
  | none => .error (.OAuthError "No refresh token available")
  | some rt =>
    .ok { access_token := resp.access_token
          refresh_token :=
            match resp.refresh_token with
            | some t => some t
            | none => some rt
          expires_at := resp.expires_in.map (fun d => respNow + d) }

/-- `AuthManager::get_valid_token` (auth_manager.rs, lines 152-166):
returns the access token to use for the next authenticated call together
with the token-store content after the call.  Refreshes exactly when a
stored `expires_at` is less than 300 seconds away. -/
def get_valid_token (stored : OAuthTokens) (now : Int)
    (resp : TokenExchangeResponse) (respNow : Int) :
    Except UvcadError (String × OAuthTokens) :=
  match stored.expires_at with
  | some expires_at =>
    if expires_at - now < 300 then
      match refresh_token stored resp respNow with
      | .ok new_tokens => .ok (new_tokens.access_token, new_tokens)
      | .error e => .error e
    else
      .ok (stored.access_token, stored)
  | none => .ok (stored.access_token, stored)

/-- C7 counterexample: at the boundary — the stored token expires in
exactly 5 minutes (`expires_at - now = 300`) — the claim (refresh unless
the expiry is more than 5 minutes in the future) demands a refresh, but
the code tests `expires_at - now < 300` and uses the stored token
unchanged, persisting nothing, even though the exchange would have
produced a different access token. -/
theorem token_refresh_boundary_cex :
    get_valid_token ⟨"old", some "r", some 300⟩ 0 ⟨"new", none, some 3600⟩ 0 =
      .ok ("old", ⟨"old", some "r", some 300⟩) ∧
    refresh_token ⟨"old", some "r", some 300⟩ ⟨"new", none, some 3600⟩ 0 =
      .ok ⟨"new", some "r", some 3600⟩ ∧
    ("old" : String) ≠ "new" := by
  refine ⟨rfl, rfl, by decide⟩

/-- C7 amended: before an authenticated call, if `expires_at` is absent
or at least 5 minutes away (`expires_at - now ≥ 300`) the current access
token is used and the store is unchanged; if it is less than 5 minutes
away (`expires_at - now < 300`) and a refresh token is stored, the
refresh token is exchanged and the result persisted, retaining the
previously stored refresh token when the response omits a new one. -/
theorem get_valid_token_refresh_policy (stored : OAuthTokens) (now : Int)
    (resp : TokenExchangeResponse) (respNow : Int) :
    (stored.expires_at = none →
      get_valid_token stored now resp respNow = .ok (stored.access_token, stored)) ∧
    (∀ expires_at : Int, stored.expires_at = some expires_at →
      300 ≤ expires_at - now →
      get_valid_token stored now resp respNow = .ok (stored.access_token, stored)) ∧
    (∀ expires_at : Int, ∀ rt : String, stored.expires_at = some expires_at →
      expires_at - now < 300 → stored.refresh_token = some rt →
      get_valid_token stored now resp respNow =
        .ok (resp.access_token,
          ⟨resp.access_token,
           some ((resp.refresh_token).getD rt),
           resp.expires_in.map (fun d => respNow + d)⟩)) := by
  refine ⟨?_, ?_, ?_⟩
  · intro hnone
    unfold get_valid_token
    rw [hnone]
  · intro expires_at hsome hfar
    unfold get_valid_token
    rw [hsome]
    have hnotlt : ¬ (expires_at - now < 300) := by omega
    simp [hnotlt]
  · intro expires_at rt hsome hnear hrt
    unfold get_valid_token
    rw [hsome]
    simp only [hnear, if_pos]
    unfold refresh_token
    rw [hrt]
    cases hresp : resp.refresh_token with
    | none => simp [hresp]
    | some t => simp [hresp]

/-- C7 amended, witness: a token 10 seconds from expiry with a stored
refresh token `"r"` and a response omitting a refresh token is exchanged
and persisted with `"r"` retained. -/
theorem get_valid_token_refresh_policy_witness :
    get_valid_token ⟨"old", some "r", some 10⟩ 0 ⟨"new", none, some 3600⟩ 0 =
      .ok ("new", ⟨"new", some ((none : Option String).getD "r"),
        (some (3600 : Int)).map (fun d => (0 : Int) + d)⟩) :=
  (get_valid_token_refresh_policy ⟨"old", some "r", some 10⟩ 0
      ⟨"new", none, some 3600⟩ 0).2.2 10 "r" rfl (by decide) rfl

/-- `SyncProfile` from src/src-tauri/src/models/sync_profile.rs, reduced
to the fields the `start_sync` command reads. -/
structure SyncProfileM where
  local_path : String
  gdrive_folder_id : Option String
  smb_share_path : Option String
deriving DecidableEq

/-- `SyncResultDto` from src/src-tauri/src/commands/sync.rs. -/
structure SyncResultDto where
  actions_performed : Nat
  files_synced : Nat
  conflicts : List String
  errors : List String
deriving DecidableEq

/-- The `Display` rendering of `UvcadError`
(the `#[error(..)]` attributes in src/src-tauri/src/utils/error.rs). -/
def errorDisplay : UvcadError → String
  | .AuthenticationFailed m => "Authentication failed: " ++ m
  | .NetworkError m => "Network error: " ++ m
  | .DatabaseError m => "Database error: " ++ m
  | .FileNotFound p => "File not found: " ++ p
  | .ConflictDetected p => "File conflict detected: " ++ p
  | .SmbNotAccessible m => "SMB share not accessible: " ++ m
  | .HashMismatch p => "Hash mismatch for file: " ++ p
  | .InvalidConfig m => "Invalid configuration: " ++ m
  | .IoError m => "IO error: " ++ m
  | .OAuthError m => "OAuth error: " ++ m
  | .TokenStorageError m => "Token storage error: " ++ m
  | .SerializationError m => "Serialization error: " ++ m
  | .ProviderError m => "Provider error: " ++ m
  | .SyncFailed m => "Sync failed: " ++ m

/-- The `start_sync` Tauri command (src/src-tauri/src/commands/sync.rs,
lines 109-246), as a transition on the global `is_syncing` flag.
`profileOutcome` is the result of `get_or_create_default_profile` (which
includes opening and initialising the database), `engineOutcome` the
result of `SyncEngine::start_sync`; the returned pair is the command
result and the flag value after the call.  Progress-event emission has no
effect on either and is omitted. -/
def cmd_start_sync (is_syncing : Bool)
    (profileOutcome : Except String SyncProfileM)
    (engineOutcome : Except UvcadError SyncResult) :
    Except String SyncResultDto × Bool :=
  if is_syncing then
    (.error "Sync already in progress", is_syncing)
  else
    match profileOutcome with
    | .error e => (.error e, true)
    | .ok profile =>
      if profile.local_path = "" then
        (.error "Local path not configured", false)
      else
        match engineOutcome with
        | .error e => (.error ("Sync failed: " ++ errorDisplay e), false)
        | .ok r =>
          (.ok ⟨r.files_synced, r.files_synced,
                r.conflicts.map (fun c => c.file_path), []⟩, false)

/-- C10: if `get_or_create_default_profile` fails after the `is_syncing`
flag was set (database open or profile load/create error), the command
propagates the error with the flag still `true`, so every subsequent call
fails with the "Sync already in progress" error even though no sync is
running; the flag is reset to `false` exactly on the local-path
validation failure, on engine error, and on success. -/
theorem cmd_start_sync_flag_behavior
    (profileOutcome : Except String SyncProfileM)
    (engineOutcome : Except UvcadError SyncResult)
    (profile : SyncProfileM) (r : SyncResult) :
    (∀ e : String, cmd_start_sync false (.error e) engineOutcome = (.error e, true)) ∧
    (cmd_start_sync true profileOutcome engineOutcome =
      (.error "Sync already in progress", true)) ∧
    (profile.local_path = "" →
      cmd_start_sync false (.ok profile) engineOutcome =
        (.error "Local path not configured", false)) ∧
    (profile.local_path ≠ "" → ∀ e : UvcadError,
      cmd_start_sync false (.ok profile) (.error e) =
        (.error ("Sync failed: " ++ errorDisplay e), false)) ∧
    (profile.local_path ≠ "" →
      cmd_start_sync false (.ok profile) (.ok r) =
        (.ok ⟨r.files_synced, r.files_synced,
              r.conflicts.map (fun c => c.file_path), []⟩, false)) := by
  refine ⟨?_, rfl, ?_, ?_, ?_⟩
  · intro e
    rfl
  · intro hempty
    simp [cmd_start_sync, hempty]
  · intro hne e
    simp [cmd_start_sync, hne]
  · intro hne
    simp [cmd_start_sync, hne]

/-- C10 witness: a failing profile load with the flag clear leaves the
flag set, and the next call fails with "Sync already in progress". -/
theorem cmd_start_sync_flag_behavior_witness :
    cmd_start_sync false (.error "Database error: open failed")
        (.ok ⟨0, 0, 0, []⟩) =
      (.error "Database error: open failed", true) ∧
    cmd_start_sync true (.ok ⟨"/data", none, none⟩) (.ok ⟨0, 0, 0, []⟩) =
      (.error "Sync already in progress", true) ∧
    cmd_start_sync false (.ok ⟨"", none, none⟩) (.ok ⟨0, 0, 0, []⟩) =
      (.error "Local path not configured", false) :=
  ⟨(cmd_start_sync_flag_behavior (.ok ⟨"/data", none, none⟩)
      (.ok ⟨0, 0, 0, []⟩) ⟨"/data", none, none⟩ ⟨0, 0, 0, []⟩).1
      "Database error: open failed",
   (cmd_start_sync_flag_behavior (.ok ⟨"/data", none, none⟩)
      (.ok ⟨0, 0, 0, []⟩) ⟨"/data", none, none⟩ ⟨0, 0, 0, []⟩).2.1,
   (cmd_start_sync_flag_behavior (.ok ⟨"", none, none⟩)
      (.ok ⟨0, 0, 0, []⟩) ⟨"", none, none⟩ ⟨0, 0, 0, []⟩).2.2.1 rfl⟩

end UVCAD
